import Mathlib

/-!
Shallow embedding of the card-rendering and batch-export code of
CodeStix/card-game-studio (src/src/App.tsx).

Conventions of the embedding:
* JavaScript numbers are modelled as exact rationals (`ℚ`); the numeric
  literals appearing in the source (including `0.7`, `0.65`, `0.35` and the
  gradient stop positions `i/6`) are written as the rationals they denote.
* The 2D canvas context is modelled as an explicit state record (`Ctx`)
  holding the current transform, filter, styles, path and save stack; every
  drawing call of the source is transliterated into a primitive that threads
  this state and appends a draw operation (`Op`) to a trace.  A draw
  operation records exactly the pieces of context state that determine its
  visual effect (paint, font, alignment, filter, current transform).
* `String` truthiness of JavaScript (`x || d`, `if (x)`) is modelled by
  `jsOr` / emptiness tests; `??` is modelled by `Option.getD`.
* Asynchronous store lookups and image decoding are modelled as explicit
  function parameters returning `Option`; a rejected promise that aborts the
  exporting `async` function is modelled as `Except.error`.
-/

namespace CardGameStudio

/-- An affine 2D transform `(x, y) ↦ (a x + c y + e, b x + d y + f)`,
the canvas current-transformation-matrix representation. -/
structure Affine where
  a : ℚ
  b : ℚ
  c : ℚ
  d : ℚ
  e : ℚ
  f : ℚ
deriving DecidableEq, Repr

/-- Apply an affine transform to a point. -/
def Affine.apply (m : Affine) (p : ℚ × ℚ) : ℚ × ℚ :=
  (m.a * p.1 + m.c * p.2 + m.e, m.b * p.1 + m.d * p.2 + m.f)

/-- Composition: `(m.comp n).apply p = m.apply (n.apply p)`; canvas
`translate`/`rotate` post-multiply the current transform by the new one. -/
def Affine.comp (m n : Affine) : Affine :=
  { a := m.a * n.a + m.c * n.b
    b := m.b * n.a + m.d * n.b
    c := m.a * n.c + m.c * n.d
    d := m.b * n.c + m.d * n.d
    e := m.a * n.e + m.c * n.f + m.e
    f := m.b * n.e + m.d * n.f + m.f }

/-- The identity transform (fresh canvas context). -/
def Affine.idA : Affine := ⟨1, 0, 0, 1, 0, 0⟩

/-- The transform of `ctx.translate(tx, ty)`. -/
def Affine.transA (tx ty : ℚ) : Affine := ⟨1, 0, 0, 1, tx, ty⟩

/-- The transform of `ctx.rotate(Math.PI)`: an exact rotation by π. -/
def Affine.rotPi : Affine := ⟨-1, 0, 0, -1, 0, 0⟩

/-- The current transform after `save(); translate(tx, ty); rotate(Math.PI)`
starting from transform `m` — the mirroring technique used by the source. -/
def Affine.mirrorAt (m : Affine) (tx ty : ℚ) : Affine :=
  (m.comp (Affine.transA tx ty)).comp Affine.rotPi

/-- A paint: either a CSS color string or a linear gradient with stops,
as produced by `createLinearGradient` + `addColorStop`. -/
inductive Paint where
  | color (s : String)
  | linearGradient (x0 y0 x1 y1 : ℚ) (stops : List (ℚ × String))
deriving DecidableEq, Repr

/-- A path segment, as built by `moveTo` / `lineTo` / `arcTo`. -/
inductive Seg where
  | moveTo (x y : ℚ)
  | lineTo (x y : ℚ)
  | arcTo (x1 y1 x2 y2 r : ℚ)
deriving DecidableEq, Repr

/-- A decoded bitmap (the `HTMLImageElement` produced by `imageFileToImage`),
abstracted to its pixel data. -/
structure Bitmap where
  data : String
deriving DecidableEq, Repr

/-- One drawing call, recording the context state it depends on. -/
inductive Op where
  | fillRect (x y rw rh : ℚ) (fill : Paint) (fil : String) (ctm : Affine)
  | drawImage (b : Bitmap) (x y rw rh : ℚ) (fil : String) (ctm : Affine)
  | fillText (s : String) (x y : ℚ) (fill : Paint) (font align fil : String)
      (ctm : Affine)
  | strokePath (p : List Seg) (stroke : Paint) (lineWidth : ℚ) (fil : String)
      (ctm : Affine)
  | fillPath (p : List Seg) (fill : Paint) (fil : String) (ctm : Affine)
deriving DecidableEq, Repr

/-- Whether an operation is a `drawImage` call (the photo layer). -/
def Op.isDrawImage : Op → Bool
  | .drawImage .. => true
  | _ => false

/-- The compositing filter that was in effect for an operation. -/
def Op.filterOf : Op → String
  | .fillRect _ _ _ _ _ fil _ => fil
  | .drawImage _ _ _ _ _ fil _ => fil
  | .fillText _ _ _ _ _ _ fil _ => fil
  | .strokePath _ _ _ fil _ => fil
  | .fillPath _ _ fil _ => fil

/-- The mutable style state of a 2D context that `save`/`restore` stack. -/
structure CtxStyle where
  transform : Affine
  fil : String
  fillStyle : Paint
  strokeStyle : Paint
  font : String
  textAlign : String
  lineWidth : ℚ
deriving DecidableEq, Repr

/-- The full 2D context state: styles, current path, save stack. -/
structure Ctx where
  style : CtxStyle
  path : List Seg
  stack : List CtxStyle
deriving DecidableEq, Repr

/-- The state of a freshly created canvas 2D context. -/
def freshCtx : Ctx :=
  { style :=
      { transform := Affine.idA
        fil := "none"
        fillStyle := .color "#000000"
        strokeStyle := .color "#000000"
        font := "10px sans-serif"
        textAlign := "start"
        lineWidth := 1 }
    path := []
    stack := [] }

/-- JavaScript `a || d` for an optional string field: the default replaces
both an absent field and the empty (falsy) string. -/
def jsOr (o : Option String) (d : String) : String :=
  match o with
  | none => d
  | some s => if s = "" then d else s

/-- The `Card` interface of the richer template (App.tsx lines 15-35). -/
structure Card where
  amount : Option ℕ
  id : String
  imageId : Option ℕ
  imageHeight : Option ℚ
  imageWidth : Option ℚ
  imageX : Option ℚ
  imageY : Option ℚ
  imageFilter : Option String
  value : String
  valueDescription : String
  text : String
  textFont : Option String
  textColor : Option String
  borderColor : Option String
  borderTextColor : Option String
  borderSmallTextColor : Option String
  noGradient : Bool
  description : String
  base64 : Option String
deriving DecidableEq, Repr

/-- The `ImageFile` interface (App.tsx lines 8-13). -/
structure ImageFile where
  id : String
  name : String
  type : String
  base64 : String
deriving DecidableEq, Repr

/-- JavaScript truthiness of the numeric `imageId` field
(`if (card.imageId)`): present and nonzero. -/
def truthyNat (o : Option ℕ) : Bool :=
  match o with
  | none => false
  | some n => n ≠ 0

/-- JavaScript truthiness of an optional string (`if (card.base64)`). -/
def truthyStr (o : Option String) : Bool :=
  match o with
  | none => false
  | some s => s ≠ ""

/-- Split a character list at every newline; structural model of
JavaScript `String.prototype.split("\n")`. -/
def splitCharList : List Char → List (List Char)
  | [] => [[]]
  | c :: rest =>
    match splitCharList rest with
    | [] => [[]]
    | cur :: others =>
      if c = '\n' then [] :: cur :: others else (c :: cur) :: others

/-- `s.split("\n")` — the line splitting used for `text` and
`description`. -/
def splitLines (s : String) : List String :=
  (splitCharList s.toList).map (fun cs => String.mk cs)

/-- `90 + card.value.length * 50` — corner badge width of the richer
template (App.tsx line 402). -/
def cornerWidth (value : String) : ℚ := 90 + value.length * 50

/-- `80 + form.values.value.length * 60` — corner badge width of the earlier
template revision (App.tsx line 977). -/
def cornerWidthV1 (value : String) : ℚ := 80 + value.length * 60

/-- The corner caption font size table of the richer template
(App.tsx lines 490-497), in pixels. -/
def cornerFontSize (value caption : String) : ℕ :=
  if value.length = 1 ∧ caption.length > 10 then 19
  else if caption.length > 7 then 24
  else if caption.length > 5 then 28
  else 32

/-- The corner caption font size table of the earlier template revision
(App.tsx line 1065), in pixels. -/
def cornerFontSizeV1 (value caption : String) : ℕ :=
  if value.length = 1 ∧ caption.length > 10 then 20 else 30

/-- The caption font string the richer template assigns to `gl.font`. -/
def cornerCaptionFont (value caption : String) : String :=
  toString (cornerFontSize value caption) ++ "px Bangers"

/-- The rainbow gradient built at App.tsx lines 424-431: a vertical linear
gradient over the full surface height with stops `i/6`. -/
def rainbowGradient (h : ℚ) : Paint :=
  .linearGradient 0 0 0 h
    [(0, "#ff3333"), (1/6, "#eeee00"), (2/6, "#11ee11"), (3/6, "#11eeee"),
     (4/6, "#0055ff"), (5/6, "#ff55ff"), (6/6, "#ff3333")]

/-- The seven rainbow stop colors in order:
red, yellow, green, cyan, blue, magenta, red. -/
def rainbowColors : List String :=
  ["#ff3333", "#eeee00", "#11ee11", "#11eeee", "#0055ff", "#ff55ff",
   "#ff3333"]

/-- Border color resolution (App.tsx lines 360 and 434-435):
`card.borderColor || "white"`, then the `"rainbow"` sentinel selects the
rainbow gradient, any other value is used literally. -/
def resolveBorderPaint (field : Option String) (h : ℚ) : Paint :=
  let borderColor := jsOr field "white"
  if borderColor = "rainbow" then rainbowGradient h else .color borderColor

/-! Primitive context operations.  Each takes and returns the pair of the
context state and the trace of draw operations emitted so far. -/

/-- `gl.fillStyle = v` -/
def setFillP (p : Ctx × List Op) (v : Paint) : Ctx × List Op :=
  ({ p.1 with style := { p.1.style with fillStyle := v } }, p.2)

/-- `gl.strokeStyle = v` -/
def setStrokeP (p : Ctx × List Op) (v : Paint) : Ctx × List Op :=
  ({ p.1 with style := { p.1.style with strokeStyle := v } }, p.2)

/-- `gl.filter = v` -/
def setFilterP (p : Ctx × List Op) (v : String) : Ctx × List Op :=
  ({ p.1 with style := { p.1.style with fil := v } }, p.2)

/-- `gl.font = v` -/
def setFontP (p : Ctx × List Op) (v : String) : Ctx × List Op :=
  ({ p.1 with style := { p.1.style with font := v } }, p.2)

/-- `gl.textAlign = v` -/
def setAlignP (p : Ctx × List Op) (v : String) : Ctx × List Op :=
  ({ p.1 with style := { p.1.style with textAlign := v } }, p.2)

/-- `gl.lineWidth = v` -/
def setLineWidthP (p : Ctx × List Op) (v : ℚ) : Ctx × List Op :=
  ({ p.1 with style := { p.1.style with lineWidth := v } }, p.2)

/-- `gl.fillRect(x, y, rw, rh)` -/
def fillRectP (p : Ctx × List Op) (x y rw rh : ℚ) : Ctx × List Op :=
  (p.1, p.2 ++ [.fillRect x y rw rh p.1.style.fillStyle p.1.style.fil
    p.1.style.transform])

/-- `gl.drawImage(b, x, y, rw, rh)` -/
def drawImageP (p : Ctx × List Op) (b : Bitmap) (x y rw rh : ℚ) :
    Ctx × List Op :=
  (p.1, p.2 ++ [.drawImage b x y rw rh p.1.style.fil p.1.style.transform])

/-- `gl.fillText(s, x, y)` -/
def fillTextP (p : Ctx × List Op) (s : String) (x y : ℚ) : Ctx × List Op :=
  (p.1, p.2 ++ [.fillText s x y p.1.style.fillStyle p.1.style.font
    p.1.style.textAlign p.1.style.fil p.1.style.transform])

/-- A `for` loop whose body is a single `fillText` call: one text operation
per item, all emitted under the (unchanged) current context state. -/
def fillTextsP (p : Ctx × List Op) (items : List (String × ℚ × ℚ)) :
    Ctx × List Op :=
  (p.1, p.2 ++ items.map (fun it =>
    .fillText it.1 it.2.1 it.2.2 p.1.style.fillStyle p.1.style.font
      p.1.style.textAlign p.1.style.fil p.1.style.transform))

/-- `gl.save()` -/
def saveP (p : Ctx × List Op) : Ctx × List Op :=
  ({ p.1 with stack := p.1.style :: p.1.stack }, p.2)

/-- `gl.restore()` -/
def restoreP (p : Ctx × List Op) : Ctx × List Op :=
  match p.1.stack with
  | [] => p
  | s :: rest => ({ p.1 with style := s, stack := rest }, p.2)

/-- `gl.translate(tx, ty)` -/
def translateP (p : Ctx × List Op) (tx ty : ℚ) : Ctx × List Op :=
  ({ p.1 with style := { p.1.style with
      transform := p.1.style.transform.comp (Affine.transA tx ty) } }, p.2)

/-- `gl.rotate(Math.PI)` -/
def rotatePiP (p : Ctx × List Op) : Ctx × List Op :=
  ({ p.1 with style := { p.1.style with
      transform := p.1.style.transform.comp Affine.rotPi } }, p.2)

/-- `gl.beginPath()` -/
def beginPathP (p : Ctx × List Op) : Ctx × List Op :=
  ({ p.1 with path := [] }, p.2)

/-- `gl.moveTo(x, y)` -/
def moveToP (p : Ctx × List Op) (x y : ℚ) : Ctx × List Op :=
  ({ p.1 with path := p.1.path ++ [.moveTo x y] }, p.2)

/-- `gl.lineTo(x, y)` -/
def lineToP (p : Ctx × List Op) (x y : ℚ) : Ctx × List Op :=
  ({ p.1 with path := p.1.path ++ [.lineTo x y] }, p.2)

/-- `gl.arcTo(x1, y1, x2, y2, r)` -/
def arcToP (p : Ctx × List Op) (x1 y1 x2 y2 r : ℚ) : Ctx × List Op :=
  ({ p.1 with path := p.1.path ++ [.arcTo x1 y1 x2 y2 r] }, p.2)

/-- `gl.stroke()` -/
def strokeP (p : Ctx × List Op) : Ctx × List Op :=
  (p.1, p.2 ++ [.strokePath p.1.path p.1.style.strokeStyle
    p.1.style.lineWidth p.1.style.fil p.1.style.transform])

/-- `gl.fill()` -/
def fillPathP (p : Ctx × List Op) : Ctx × List Op :=
  (p.1, p.2 ++ [.fillPath p.1.path p.1.style.fillStyle p.1.style.fil
    p.1.style.transform])

/-- Transliteration of `renderCanvas(canvas, card, convertedImage?)`
(App.tsx lines 353-505), threading the context state and collecting the
trace of drawing operations. -/
def renderState (w h : ℚ) (card : Card) (img : Option Bitmap) (c0 : Ctx) :
    Ctx × List Op :=
  let p : Ctx × List Op := (c0, [])
  let p := setFillP p (.color "white")
  let p := fillRectP p 0 0 w h
  let borderTextColor := jsOr card.borderTextColor "#555555"
  let borderTextSmallColor := jsOr card.borderSmallTextColor "#999999"
  let textColor := jsOr card.textColor "white"
  -- Draw background
  let p := setFilterP p (jsOr card.imageFilter "none")
  let p := match img with
    | some b => drawImageP p b (card.imageX.getD 0) (card.imageY.getD 0)
        (card.imageWidth.getD w) (card.imageHeight.getD h)
    | none => p
  let p := setFilterP p "none"
  -- Draw gradients
  let p :=
    if card.noGradient then p
    else
      let p := setFillP p (.linearGradient 0 0 0 h
        [(65/100, "#00000000"), (1, "#00000088")])
      let p := fillRectP p 0 0 w h
      let p := setFillP p (.linearGradient 0 0 0 h
        [(0, "#00000088"), (35/100, "#00000000")])
      fillRectP p 0 0 w h
  -- Draw main text
  let p :=
    if card.text = "" then p
    else
      let lines := splitLines card.text
      let p := setFillP p (.color "#000000aa")
      let p := fillRectP p 0 (h * (7/10) - 36) w ((lines.length : ℚ) * 42 + 14)
      let p := setAlignP p "center"
      let p := setFontP p (jsOr card.textFont "34px Besley")
      let p := setFillP p (.color textColor)
      fillTextsP p ((List.range lines.length).map (fun i =>
        (lines.getD i "", (w / 2, h * (7/10) + 5 + (i : ℚ) * 42))))
  let cw := cornerWidth card.value
  -- Draw description (mirrored into the opposite corner)
  let p :=
    if card.description = "" then p
    else
      let lines := splitLines card.description
      let p := setFillP p (.color "#dddddd")
      let p := setAlignP p "left"
      let p := setFontP p "bold 18px Besley"
      let items := (List.range lines.length).map (fun i =>
        ((lines.getD i "").toUpper, (cw + 35, 70 + (i : ℚ) * 27)))
      let p := fillTextsP p items
      let p := saveP p
      let p := translateP p w h
      let p := rotatePiP p
      let p := fillTextsP p items
      restoreP p
  -- Draw border
  let p := setStrokeP p (resolveBorderPaint card.borderColor h)
  let p := setFillP p (resolveBorderPaint card.borderColor h)
  let p := setLineWidthP p 50
  let p := beginPathP p
  let p := moveToP p 0 0
  let p := lineToP p w 0
  let p := lineToP p (w - 50) 0
  let p := arcToP p w 0 w 50 40
  let p := lineToP p w h
  let p := lineToP p w (h - 50)
  let p := arcToP p w h (w - 50) h 40
  let p := lineToP p 0 h
  let p := lineToP p 50 h
  let p := arcToP p 0 h 0 (h - 50) 40
  let p := lineToP p 0 0
  let p := lineToP p 0 50
  let p := arcToP p 0 0 50 0 40
  let p := strokeP p
  -- Draw border corners
  let p := beginPathP p
  let p := moveToP p 0 0
  let p := lineToP p cw 0
  let p := lineToP p cw (180 - 5)
  let p := arcToP p cw 180 (cw - 5) 180 20
  let p := lineToP p 0 180
  let p := fillPathP p
  let p := beginPathP p
  let p := moveToP p w h
  let p := lineToP p (w - cw) h
  let p := lineToP p (w - cw) (h - 180 + 5)
  let p := arcToP p (w - cw) (h - 180) (w - cw + 5) (h - 180) 20
  let p := lineToP p w (h - 180)
  let p := fillPathP p
  -- Draw corner value
  let p := setAlignP p "center"
  let p := setFillP p (.color borderTextColor)
  let p := setFontP p "120px Bangers"
  let p := fillTextP p card.value (cw / 2) 117
  let p := saveP p
  let p := translateP p (w - cw / 2) (h - 117)
  let p := rotatePiP p
  let p := fillTextP p card.value 0 0
  let p := restoreP p
  -- Draw corner value description
  if card.valueDescription = "" then p
  else
    let p := setFillP p (.color borderTextSmallColor)
    let p := setFontP p (cornerCaptionFont card.value card.valueDescription)
    let p := fillTextP p card.valueDescription (cw / 2) 160
    let p := saveP p
    let p := translateP p (w - cw / 2) (h - 160)
    let p := rotatePiP p
    let p := fillTextP p card.valueDescription 0 0
    restoreP p

/-- The drawing trace of one `renderCanvas` call on a fresh surface of size
`w × h` — the observable output of the Rendering Engine. -/
def renderCanvas (w h : ℚ) (card : Card) (img : Option Bitmap) : List Op :=
  (renderState w h card img freshCtx).2

/-! Normal form of the trace, layer by layer.  The segments are
parameterized by the transform `m` and filter `fil0` found in the context
on entry; `renderState_ops` below proves that the transliterated renderer
produces exactly this trace. -/

/-- Layer 1: the solid white base fill. -/
def baseOps (w h : ℚ) (m : Affine) (fil0 : String) : List Op :=
  [.fillRect 0 0 w h (.color "white") fil0 m]

/-- Layer 2: the photo, when a decoded bitmap is supplied. -/
def photoOps (w h : ℚ) (m : Affine) (card : Card) (img : Option Bitmap) :
    List Op :=
  match img with
  | none => []
  | some b => [.drawImage b (card.imageX.getD 0) (card.imageY.getD 0)
      (card.imageWidth.getD w) (card.imageHeight.getD h)
      (jsOr card.imageFilter "none") m]

/-- Layer 3: the top/bottom vignette gradients. -/
def gradOps (w h : ℚ) (m : Affine) (card : Card) : List Op :=
  if card.noGradient then []
  else
    [.fillRect 0 0 w h (.linearGradient 0 0 0 h
        [(65/100, "#00000000"), (1, "#00000088")]) "none" m,
     .fillRect 0 0 w h (.linearGradient 0 0 0 h
        [(0, "#00000088"), (35/100, "#00000000")]) "none" m]

/-- Layer 4: the backing rectangle and centered lines of the body text. -/
def mainTextOps (w h : ℚ) (m : Affine) (card : Card) : List Op :=
  if card.text = "" then []
  else
    .fillRect 0 (h * (7/10) - 36) w
        (((splitLines card.text).length : ℚ) * 42 + 14)
        (.color "#000000aa") "none" m ::
    (List.range (splitLines card.text).length).map (fun i =>
      .fillText ((splitLines card.text).getD i "") (w / 2)
        (h * (7/10) + 5 + (i : ℚ) * 42)
        (.color (jsOr card.textColor "white")) (jsOr card.textFont "34px Besley")
        "center" "none" m)

/-- Layer 5: the upper-cased description lines, drawn once at the top-left
and once under the mirroring transform. -/
def descOps (w h : ℚ) (m : Affine) (card : Card) : List Op :=
  if card.description = "" then []
  else
    ((List.range (splitLines card.description).length).map (fun i =>
      .fillText (((splitLines card.description).getD i "").toUpper)
        (cornerWidth card.value + 35)
        (70 + (i : ℚ) * 27) (.color "#dddddd") "bold 18px Besley" "left"
        "none" m)) ++
    ((List.range (splitLines card.description).length).map (fun i =>
      .fillText (((splitLines card.description).getD i "").toUpper)
        (cornerWidth card.value + 35)
        (70 + (i : ℚ) * 27) (.color "#dddddd") "bold 18px Besley" "left"
        "none" (Affine.mirrorAt m w h)))

/-- The rounded-rectangle border path. -/
def borderSegs (w h : ℚ) : List Seg :=
  [.moveTo 0 0, .lineTo w 0, .lineTo (w - 50) 0, .arcTo w 0 w 50 40,
   .lineTo w h, .lineTo w (h - 50), .arcTo w h (w - 50) h 40,
   .lineTo 0 h, .lineTo 50 h, .arcTo 0 h 0 (h - 50) 40,
   .lineTo 0 0, .lineTo 0 50, .arcTo 0 0 50 0 40]

/-- Layer 6: the border stroke. -/
def borderOps (w h : ℚ) (m : Affine) (card : Card) : List Op :=
  [.strokePath (borderSegs w h) (resolveBorderPaint card.borderColor h) 50
    "none" m]

/-- The top-left corner badge path. -/
def topCornerSegs (cw : ℚ) : List Seg :=
  [.moveTo 0 0, .lineTo cw 0, .lineTo cw (180 - 5),
   .arcTo cw 180 (cw - 5) 180 20, .lineTo 0 180]

/-- The bottom-right corner badge path. -/
def bottomCornerSegs (w h cw : ℚ) : List Seg :=
  [.moveTo w h, .lineTo (w - cw) h, .lineTo (w - cw) (h - 180 + 5),
   .arcTo (w - cw) (h - 180) (w - cw + 5) (h - 180) 20, .lineTo w (h - 180)]

/-- Layer 7: the two corner badge fills. -/
def cornerOps (w h : ℚ) (m : Affine) (card : Card) : List Op :=
  [.fillPath (topCornerSegs (cornerWidth card.value))
     (resolveBorderPaint card.borderColor h) "none" m,
   .fillPath (bottomCornerSegs w h (cornerWidth card.value))
     (resolveBorderPaint card.borderColor h) "none" m]

/-- Layer 8: the corner value glyph and its mirrored duplicate. -/
def valueOps (w h : ℚ) (m : Affine) (card : Card) : List Op :=
  [.fillText card.value (cornerWidth card.value / 2) 117
     (.color (jsOr card.borderTextColor "#555555")) "120px Bangers" "center"
     "none" m,
   .fillText card.value 0 0
     (.color (jsOr card.borderTextColor "#555555")) "120px Bangers" "center"
     "none" (Affine.mirrorAt m (w - cornerWidth card.value / 2) (h - 117))]

/-- Layer 9: the corner caption and its mirrored duplicate. -/
def captionOps (w h : ℚ) (m : Affine) (card : Card) : List Op :=
  if card.valueDescription = "" then []
  else
    [.fillText card.valueDescription (cornerWidth card.value / 2) 160
       (.color (jsOr card.borderSmallTextColor "#999999"))
       (cornerCaptionFont card.value card.valueDescription) "center" "none" m,
     .fillText card.valueDescription 0 0
       (.color (jsOr card.borderSmallTextColor "#999999"))
       (cornerCaptionFont card.value card.valueDescription) "center" "none"
       (Affine.mirrorAt m (w - cornerWidth card.value / 2) (h - 160))]

/-- A card record with the cached raster (`base64`) removed. -/
def stripCache (c : Card) : Card := { c with base64 := none }

/-! The batch exporter (the card "Export as zip" click handler, App.tsx
lines 201-258).  In the source `rerender` is the constant `true` (so the
offscreen 732×1039 canvas always exists) and `exportJson` is the constant
`false` (so no JSON sidecars are written).  The asynchronous store lookup
and image decoding are the parameters `lk` and `dec`; a `none` from either
models `database.get` finding nothing (making `imageFileToImage` throw) or
the image element's error event — both reject the promise and abort the
`async` handler, modelled as `Except.error`.  `enc` models
`canvas.toDataURL()`'s base64 payload for a drawing trace.  The archive is
the list of `(file name, base64 content)` pairs in `zip.file` call order;
alongside it the exporter returns the list of indices of the records for
which the Rendering Engine was invoked.  The `database.put` write-back of
the cached card is an external-store effect with no bearing on the
archive; the updated record itself (`card'`) is modelled. -/

/-- `{index}.png` for the first copy, `{index}-{n}.png` for extras. -/
def entryName (i n : ℕ) : String :=
  if n = 0 then toString i ++ ".png" else
    toString i ++ "-" ++ toString n ++ ".png"

/-- `card.amount || 1` — the print-count multiplier. -/
def amountOf (c : Card) : ℕ :=
  match c.amount with
  | none => 1
  | some n => if n = 0 then 1 else n

/-- `let headerIndex = base64.indexOf(","); headerIndex > 0 ?
base64.substring(headerIndex + 1) : base64` — dropping a data-URL header. -/
def stripHeader (s : String) : String :=
  let cs := s.toList
  let idx := cs.indexOf ','
  if 0 < idx ∧ idx < cs.length then String.mk (cs.drop (idx + 1)) else s

/-- The `for (n = 0; n < (card.amount || 1); n++) zip.file(...)` loop for
the record at position `i`. -/
def cardEntries (i : ℕ) (c : Card) : List (String × String) :=
  (List.range (amountOf c)).map (fun n =>
    (entryName i n, stripHeader (c.base64.getD "")))

/-- The export loop from position `i` over the remaining records. -/
def exportLoop (lk : ℕ → Option ImageFile) (dec : ImageFile → Option Bitmap)
    (enc : List Op → String) :
    ℕ → List Card → Except String (List (String × String) × List ℕ)
  | _, [] => .ok ([], [])
  | i, card :: rest =>
    let step : Except String (Card × List ℕ) :=
      if truthyNat card.imageId then
        match lk (card.imageId.getD 0) with
        | none => .error "imageFileToImage: image is undefined"
        | some f =>
          match dec f with
          | none => .error "imageFileToImage: decode error"
          | some b =>
            .ok ({ card with base64 := some ("data:image/png;base64," ++
                enc (renderCanvas 732 1039 card (some b))) }, [i])
      else .ok (card, [])
    match step with
    | .error e => .error e
    | .ok (card', renderedHere) =>
      let entries :=
        if truthyStr card'.base64 then cardEntries i card' else []
      match exportLoop lk dec enc (i + 1) rest with
      | .error e => .error e
      | .ok (restEntries, restRendered) =>
        .ok (entries ++ restEntries, renderedHere ++ restRendered)

/-- The whole batch export over the stored card list. -/
def exportAll (cards : List Card) (lk : ℕ → Option ImageFile)
    (dec : ImageFile → Option Bitmap) (enc : List Op → String) :
    Except String (List (String × String) × List ℕ) :=
  exportLoop lk dec enc 0 cards

/-- The archive contents expected from position `k` onward when every
record is exported straight from its cache. -/
def archiveFromCache (k : ℕ) : List Card → List (String × String)
  | [] => []
  | c :: rest => cardEntries k c ++ archiveFromCache (k + 1) rest

/-- The positions, from `k` onward, of the records for which the code
invokes the Rendering Engine: exactly those with a truthy `imageId`. -/
def renderedIdx (k : ℕ) : List Card → List ℕ
  | [] => []
  | c :: rest =>
    (if truthyNat c.imageId then [k] else []) ++ renderedIdx (k + 1) rest

/-- The archive entry names expected from position `k` onward: a record
contributes its `amount || 1` names when it is re-rendered (truthy
`imageId`) or already carries a truthy cached raster, and nothing
otherwise. -/
def expectedNames (k : ℕ) : List Card → List String
  | [] => []
  | c :: rest =>
    (if truthyNat c.imageId || truthyStr c.base64 then
      (List.range (amountOf c)).map (entryName k) else []) ++
    expectedNames (k + 1) rest

/-- A minimal card: every optional field absent, every string empty. -/
def cardPlain : Card :=
  { amount := none, id := "p", imageId := none, imageHeight := none
    imageWidth := none, imageX := none, imageY := none, imageFilter := none
    value := "", valueDescription := "", text := "", textFont := none
    textColor := none, borderColor := none, borderTextColor := none
    borderSmallTextColor := none, noGradient := false, description := ""
    base64 := none }

/-- A card with a cached raster and print count 1. -/
def cardA : Card :=
  { cardPlain with
    id := "a"
    amount := some 1
    base64 := some "AAAA" }

/-- A card with a cached data-URL raster and print count 2. -/
def cardB : Card :=
  { cardPlain with
    id := "b"
    amount := some 2
    base64 := some "data:image/png;base64,BBBB" }

/-- A card with a description, a value and a caption, for witnesses. -/
def cardDesc : Card :=
  { cardPlain with
    value := "3"
    description := "hi"
    valueDescription := "brie" }

/-- A card that references image asset 1 and also has a cached raster. -/
def cardImg : Card :=
  { cardPlain with
    id := "i"
    imageId := some 1
    base64 := some "AAAA" }

set_option maxRecDepth 8000 in
set_option maxHeartbeats 1600000 in
/-- The renderer's trace is exactly the nine layers in order, each entered
with the caller's transform, and only the base fill exposed to the caller's
filter state. -/
theorem renderState_ops (w h : ℚ) (card : Card) (img : Option Bitmap)
    (c0 : Ctx) :
    (renderState w h card img c0).2 =
      baseOps w h c0.style.transform c0.style.fil ++
      photoOps w h c0.style.transform card img ++
      gradOps w h c0.style.transform card ++
      mainTextOps w h c0.style.transform card ++
      descOps w h c0.style.transform card ++
      borderOps w h c0.style.transform card ++
      cornerOps w h c0.style.transform card ++
      valueOps w h c0.style.transform card ++
      captionOps w h c0.style.transform card := by
  cases img <;>
  cases hg : card.noGradient <;>
  by_cases ht : card.text = "" <;>
  by_cases hd : card.description = "" <;>
  by_cases hv : card.valueDescription = "" <;>
  simp [renderState, baseOps, photoOps, gradOps, mainTextOps, descOps,
    borderOps, cornerOps, valueOps, captionOps, setFillP, setStrokeP,
    setFilterP, setFontP, setAlignP, setLineWidthP, fillRectP, drawImageP,
    fillTextP, fillTextsP, saveP, restoreP, translateP, rotatePiP,
    beginPathP, moveToP, lineToP, arcToP, strokeP, fillPathP, borderSegs,
    topCornerSegs, bottomCornerSegs, Affine.mirrorAt, Function.comp_def,
    ht, hd, hv, hg]

set_option maxRecDepth 8000 in
set_option maxHeartbeats 1600000 in
/-- On return the renderer has restored the incoming transform (every
`translate`/`rotate` sits between a `save`/`restore` pair), left the filter
reset to `"none"`, and left the save stack as it found it. -/
theorem renderState_final (w h : ℚ) (card : Card) (img : Option Bitmap)
    (c0 : Ctx) :
    (renderState w h card img c0).1.style.transform = c0.style.transform ∧
    (renderState w h card img c0).1.style.fil = "none" ∧
    (renderState w h card img c0).1.stack = c0.stack := by
  refine ⟨?_, ?_, ?_⟩ <;>
  (cases img <;>
   cases hg : card.noGradient <;>
   by_cases ht : card.text = "" <;>
   by_cases hd : card.description = "" <;>
   by_cases hv : card.valueDescription = "" <;>
   simp [renderState, setFillP, setStrokeP, setFilterP, setFontP, setAlignP,
     setLineWidthP, fillRectP, drawImageP, fillTextP, fillTextsP, saveP,
     restoreP, translateP, rotatePiP, beginPathP, moveToP, lineToP, arcToP,
     strokeP, fillPathP, ht, hd, hv, hg])

/-- C6: the corner badge width is the template's base offset plus
`value.length` times the template's factor (90 + 50·len in the richer
template, 80 + 60·len in the earlier revision), hence non-decreasing in
the length of `value`. -/
theorem c6_corner_width_affine :
    (∀ v : String, cornerWidth v = 90 + v.length * 50) ∧
    (∀ v : String, cornerWidthV1 v = 80 + v.length * 60) ∧
    (∀ v u : String, v.length ≤ u.length →
      cornerWidth v ≤ cornerWidth u ∧ cornerWidthV1 v ≤ cornerWidthV1 u) := by
  refine ⟨fun v => rfl, fun v => rfl, fun v u hle => ?_⟩
  have h : (v.length : ℚ) ≤ (u.length : ℚ) := by exact_mod_cast hle
  unfold cornerWidth cornerWidthV1
  constructor <;> linarith

theorem c6_corner_width_affine_witness :
    ("ab".length ≤ "abc".length) ∧
    (cornerWidth "ab" ≤ cornerWidth "abc" ∧
      cornerWidthV1 "ab" ≤ cornerWidthV1 "abc") :=
  ⟨by decide, c6_corner_width_affine.2.2 "ab" "abc" (by decide)⟩

/-- C5: the richer template's corner caption font size table is total with
values among the four sizes 19, 24, 28, 32 px; the smallest size 19 is
chosen exactly when `value` has length 1 and the caption is longer than 10;
the largest size 32 is the default for captions of length at most 5; and
for a fixed `value` the chosen size is non-increasing as the caption
grows (likewise in the earlier two-size revision). -/
theorem c5_caption_font_table :
    (∀ v cap : String, v.length = 1 → cap.length > 10 →
      cornerFontSize v cap = 19) ∧
    (∀ v cap : String, cornerFontSize v cap ∈ ([19, 24, 28, 32] : List ℕ)) ∧
    (∀ v cap : String, cap.length ≤ 5 → cornerFontSize v cap = 32) ∧
    (∀ v c1 c2 : String, c1.length ≤ c2.length →
      cornerFontSize v c2 ≤ cornerFontSize v c1) ∧
    (∀ v c1 c2 : String, c1.length ≤ c2.length →
      cornerFontSizeV1 v c2 ≤ cornerFontSizeV1 v c1) := by
  refine ⟨fun v cap h1 h2 => ?_, fun v cap => ?_, fun v cap h => ?_,
    fun v c1 c2 h => ?_, fun v c1 c2 h => ?_⟩
  · unfold cornerFontSize; rw [if_pos ⟨h1, h2⟩]
  · unfold cornerFontSize; split_ifs <;> simp
  · unfold cornerFontSize; split_ifs <;> omega
  · unfold cornerFontSize; split_ifs <;> omega
  · unfold cornerFontSizeV1; split_ifs <;> omega

theorem c5_caption_font_table_witness :
    ("7".length = 1 ∧ "elderflower".length > 10 ∧
      cornerFontSize "7" "elderflower" = 19) ∧
    ("brie".length ≤ "brioche".length ∧
      cornerFontSize "x" "brioche" ≤ cornerFontSize "x" "brie") :=
  ⟨⟨by decide, by decide,
      c5_caption_font_table.1 "7" "elderflower" (by decide) (by decide)⟩,
   ⟨by decide, c5_caption_font_table.2.2.2.1 "x" "brie" "brioche" (by decide)⟩⟩

/-- C3: border color resolution — the sentinel `"rainbow"` resolves to a
vertical linear gradient spanning the full surface height with seven stops
at `i/6` for `i = 0..6` cycling red, yellow, green, cyan, blue, magenta,
red; any other non-empty value resolves to itself; an absent value
resolves to the default white. -/
theorem c3_border_color_resolution :
    (∀ h : ℚ, resolveBorderPaint (some "rainbow") h =
      Paint.linearGradient 0 0 0 h ((List.range 7).map (fun (i : ℕ) =>
        ((i : ℚ) / 6, rainbowColors.getD i "")))) ∧
    (∀ (h : ℚ) (s : String), s ≠ "" → s ≠ "rainbow" →
      resolveBorderPaint (some s) h = .color s) ∧
    (∀ h : ℚ, resolveBorderPaint none h = .color "white") := by
  have hstops : ((List.range 7).map (fun (i : ℕ) =>
      ((i : ℚ) / 6, rainbowColors.getD i ""))) =
      [(0, "#ff3333"), (1/6, "#eeee00"), (2/6, "#11ee11"), (3/6, "#11eeee"),
       (4/6, "#0055ff"), (5/6, "#ff55ff"), (6/6, "#ff3333")] := by
    simp [List.range_succ, rainbowColors]
  refine ⟨fun h => ?_, fun h s hne hnr => ?_, fun h => ?_⟩
  · rw [hstops]; rfl
  · simp [resolveBorderPaint, jsOr, hne, hnr]
  · rfl

theorem c3_border_color_resolution_witness :
    resolveBorderPaint (some "#4488cc") 1039 = .color "#4488cc" ∧
    resolveBorderPaint (some "rainbow") 1039 =
      Paint.linearGradient 0 0 0 1039 ((List.range 7).map (fun (i : ℕ) =>
        ((i : ℚ) / 6, rainbowColors.getD i ""))) :=
  ⟨c3_border_color_resolution.2.1 1039 "#4488cc" (by decide) (by decide),
   c3_border_color_resolution.1 1039⟩

/-- C7: rendering is a pure function of the card record minus its cache
field and the optional resolved bitmap — two cards that agree on
everything except the cached `base64` raster produce identical drawing
traces on same-sized fresh surfaces. -/
theorem c7_render_pure (w h : ℚ) (c1 c2 : Card) (img : Option Bitmap)
    (hagree : stripCache c1 = stripCache c2) :
    renderCanvas w h c1 img = renderCanvas w h c2 img := by
  have e1 : renderCanvas w h c1 img = renderCanvas w h (stripCache c1) img :=
    rfl
  have e2 : renderCanvas w h c2 img = renderCanvas w h (stripCache c2) img :=
    rfl
  rw [e1, e2, hagree]

/-- On a fresh surface the renderer's trace is the nine layers under the
identity transform, with only the photo draw exposed to `imageFilter`. -/
theorem renderCanvas_eq (w h : ℚ) (card : Card) (img : Option Bitmap) :
    renderCanvas w h card img =
      baseOps w h Affine.idA "none" ++
      photoOps w h Affine.idA card img ++
      gradOps w h Affine.idA card ++
      mainTextOps w h Affine.idA card ++
      descOps w h Affine.idA card ++
      borderOps w h Affine.idA card ++
      cornerOps w h Affine.idA card ++
      valueOps w h Affine.idA card ++
      captionOps w h Affine.idA card := by
  have h0 := renderState_ops w h card img freshCtx
  simpa [renderCanvas, freshCtx] using h0

/-- Every operation of the eight non-photo layers is not a `drawImage` and
was drawn with the filter reset to `"none"`. -/
theorem nonPhotoOps_tame (w h : ℚ) (m : Affine) (card : Card) :
    ∀ op : Op, (op ∈ baseOps w h m "none" ∨ op ∈ gradOps w h m card ∨
      op ∈ mainTextOps w h m card ∨ op ∈ descOps w h m card ∨
      op ∈ borderOps w h m card ∨ op ∈ cornerOps w h m card ∨
      op ∈ valueOps w h m card ∨ op ∈ captionOps w h m card) →
      op.isDrawImage = false ∧ op.filterOf = "none" := by
  intro op hop
  rcases hop with hop | hop | hop | hop | hop | hop | hop | hop
  · simp [baseOps] at hop; subst hop; exact ⟨rfl, rfl⟩
  · unfold gradOps at hop
    split_ifs at hop
    · simp at hop
    · simp at hop; rcases hop with rfl | rfl <;> exact ⟨rfl, rfl⟩
  · unfold mainTextOps at hop
    split_ifs at hop
    · simp at hop
    · simp at hop; rcases hop with rfl | ⟨i, -, rfl⟩ <;> exact ⟨rfl, rfl⟩
  · unfold descOps at hop
    split_ifs at hop
    · simp at hop
    · simp at hop; rcases hop with ⟨i, -, rfl⟩ | ⟨i, -, rfl⟩ <;>
        exact ⟨rfl, rfl⟩
  · simp [borderOps] at hop; subst hop; exact ⟨rfl, rfl⟩
  · simp [cornerOps] at hop; rcases hop with rfl | rfl <;> exact ⟨rfl, rfl⟩
  · simp [valueOps] at hop; rcases hop with rfl | rfl <;> exact ⟨rfl, rfl⟩
  · unfold captionOps at hop
    split_ifs at hop
    · simp at hop
    · simp at hop; rcases hop with rfl | rfl <;> exact ⟨rfl, rfl⟩

/-- A list all of whose operations are tame keeps nothing under the
`isDrawImage` filter and everything under its negation. -/
theorem opsFilterSplit (L : List Op)
    (hL : ∀ op ∈ L, op.isDrawImage = false ∧ op.filterOf = "none") :
    L.filter Op.isDrawImage = [] ∧
    L.filter (fun op => !op.isDrawImage) = L := by
  constructor
  · exact List.filter_eq_nil_iff.mpr (fun a ha => by simp [(hL a ha).1])
  · exact List.filter_eq_self.mpr (fun a ha => by simp [(hL a ha).1])

/-- C9: the photo layer contract — with a bitmap supplied, the trace holds
exactly one `drawImage`, at `(imageX, imageY)` with size
`(imageWidth, imageHeight)` (defaulting to offset 0 and the full surface
size), under `imageFilter` (defaulted to none); every other operation of
the trace runs with the filter reset to `"none"`; and with no bitmap the
trace is exactly the bitmap trace minus that single photo draw, so no
other layer is affected. -/
theorem c9_photo_layer_contract (w h : ℚ) (c : Card) (b : Bitmap) :
    (renderCanvas w h c (some b)).filter Op.isDrawImage =
      [Op.drawImage b (c.imageX.getD 0) (c.imageY.getD 0)
        (c.imageWidth.getD w) (c.imageHeight.getD h)
        (jsOr c.imageFilter "none") Affine.idA] ∧
    (∀ op ∈ renderCanvas w h c (some b), op.isDrawImage = false →
      op.filterOf = "none") ∧
    renderCanvas w h c none =
      (renderCanvas w h c (some b)).filter (fun op => !op.isDrawImage) := by
  have tame := nonPhotoOps_tame w h Affine.idA c
  have f1 := opsFilterSplit _ (fun op hop => tame op (Or.inl hop))
  have f2 := opsFilterSplit _ (fun op hop => tame op (Or.inr (Or.inl hop)))
  have f3 := opsFilterSplit _
    (fun op hop => tame op (Or.inr (Or.inr (Or.inl hop))))
  have f4 := opsFilterSplit _
    (fun op hop => tame op (Or.inr (Or.inr (Or.inr (Or.inl hop)))))
  have f5 := opsFilterSplit _
    (fun op hop => tame op (Or.inr (Or.inr (Or.inr (Or.inr (Or.inl hop))))))
  have f6 := opsFilterSplit _ (fun op hop => tame op
    (Or.inr (Or.inr (Or.inr (Or.inr (Or.inr (Or.inl hop)))))))
  have f7 := opsFilterSplit _ (fun op hop => tame op
    (Or.inr (Or.inr (Or.inr (Or.inr (Or.inr (Or.inr (Or.inl hop))))))))
  have f8 := opsFilterSplit _ (fun op hop => tame op
    (Or.inr (Or.inr (Or.inr (Or.inr (Or.inr (Or.inr (Or.inr hop))))))))
  refine ⟨?_, ?_, ?_⟩
  · rw [renderCanvas_eq]
    simp only [List.filter_append, f1.1, f2.1, f3.1, f4.1, f5.1, f6.1, f7.1,
      f8.1, photoOps]
    simp [Op.isDrawImage]
  · intro op hop hnot
    rw [renderCanvas_eq] at hop
    simp only [List.mem_append, or_assoc] at hop
    rcases hop with hop | hop | hop | hop | hop | hop | hop | hop | hop
    · exact (tame op (Or.inl hop)).2
    · simp [photoOps] at hop; subst hop; simp [Op.isDrawImage] at hnot
    · exact (tame op (Or.inr (Or.inl hop))).2
    · exact (tame op (Or.inr (Or.inr (Or.inl hop)))).2
    · exact (tame op (Or.inr (Or.inr (Or.inr (Or.inl hop))))).2
    · exact (tame op (Or.inr (Or.inr (Or.inr (Or.inr (Or.inl hop)))))).2
    · exact (tame op
        (Or.inr (Or.inr (Or.inr (Or.inr (Or.inr (Or.inl hop))))))).2
    · exact (tame op
        (Or.inr (Or.inr (Or.inr (Or.inr (Or.inr (Or.inr (Or.inl hop)))))))).2
    · exact (tame op
        (Or.inr (Or.inr (Or.inr (Or.inr (Or.inr (Or.inr (Or.inr hop)))))))).2
  · rw [renderCanvas_eq w h c none, renderCanvas_eq w h c (some b)]
    simp only [List.filter_append, f1.2, f2.2, f3.2, f4.2, f5.2, f6.2, f7.2,
      f8.2, photoOps]
    simp [Op.isDrawImage]

theorem c9_photo_layer_contract_witness :
    Op.filterOf (Op.fillRect 0 0 732 1039 (.color "white") "none"
      Affine.idA) = "none" ∧
    renderCanvas 732 1039 cardPlain none =
      (renderCanvas 732 1039 cardPlain (some ⟨"px"⟩)).filter
        (fun op => !op.isDrawImage) :=
  ⟨(c9_photo_layer_contract 732 1039 cardPlain ⟨"px"⟩).2.1
      (Op.fillRect 0 0 732 1039 (.color "white") "none" Affine.idA)
      (by rw [renderCanvas_eq]; simp [baseOps]) (by decide),
    (c9_photo_layer_contract 732 1039 cardPlain ⟨"px"⟩).2.2⟩

/-- C10: when `renderCanvas` returns, the context's transform is back to
the identity (every `translate`/`rotate` of the mirrored drawing sits
between a `save` and its matching `restore`), the save stack is balanced,
and the compositing filter is reset to `"none"`; consequently a second
render reusing the same surface and context draws exactly what it would
draw on a fresh context. -/
theorem c10_context_restored (w h : ℚ) (c : Card) (img : Option Bitmap)
    (c2 : Card) (img2 : Option Bitmap) :
    (renderState w h c img freshCtx).1.style.transform = Affine.idA ∧
    (renderState w h c img freshCtx).1.style.fil = "none" ∧
    (renderState w h c img freshCtx).1.stack = [] ∧
    (renderState w h c2 img2 (renderState w h c img freshCtx).1).2 =
      renderCanvas w h c2 img2 := by
  obtain ⟨h1, h2, h3⟩ := renderState_final w h c img freshCtx
  have h1a : (renderState w h c img freshCtx).1.style.transform =
      Affine.idA := by rw [h1]; rfl
  have h3a : (renderState w h c img freshCtx).1.stack = [] := by
    rw [h3]; rfl
  refine ⟨h1a, h2, h3a, ?_⟩
  rw [renderState_ops w h c2 img2 (renderState w h c img freshCtx).1,
    renderCanvas_eq w h c2 img2, h1a, h2]

/-- C1 (counterexample): a batch whose first record has `imageId` set but
whose asset lookup finds nothing aborts the whole export with an error —
no archive is produced even though the following record has a cached
raster ready to export.  This refutes the claim that such a record's photo
layer is skipped and the batch continues to an archive. -/
theorem c1_export_continues_counterexample :
    exportAll [cardImg, cardA] (fun _ => none) (fun _ => none) (fun _ => "")
      = .error "imageFileToImage: image is undefined" := rfl

/-- C1 (amended): when the export reaches a record with a truthy `imageId`
(any earlier records having falsy `imageId`) whose asset lookup returns no
image, or whose bytes fail to decode into a bitmap, the batch export
aborts with an error: no archive is returned and the remaining records are
not processed. -/
theorem c1_photo_failure_aborts (pre post : List Card) (card : Card)
    (lk : ℕ → Option ImageFile) (dec : ImageFile → Option Bitmap)
    (enc : List Op → String)
    (hpre : ∀ c ∈ pre, truthyNat c.imageId = false)
    (himg : truthyNat card.imageId = true)
    (hfail : lk (card.imageId.getD 0) = none ∨
      ∃ f, lk (card.imageId.getD 0) = some f ∧ dec f = none) :
    ∃ msg, exportAll (pre ++ card :: post) lk dec enc = .error msg := by
  suffices h : ∀ (cs : List Card), (∀ c ∈ cs, truthyNat c.imageId = false) →
      ∀ k, ∃ msg,
        exportLoop lk dec enc k (cs ++ card :: post) = .error msg by
    exact h pre hpre 0
  intro cs
  induction cs with
  | nil =>
    intro _ k
    rcases hfail with hnone | ⟨f, hf, hdec⟩
    · exact ⟨"imageFileToImage: image is undefined",
        by simp [exportLoop, himg, hnone]⟩
    · exact ⟨"imageFileToImage: decode error",
        by simp [exportLoop, himg, hf, hdec]⟩
  | cons c rest ih =>
    intro hcs k
    have hc : truthyNat c.imageId = false := hcs c (List.mem_cons_self c rest)
    obtain ⟨msg, hmsg⟩ :=
      ih (fun x hx => hcs x (List.mem_cons_of_mem c hx)) (k + 1)
    exact ⟨msg, by simp [exportLoop, hc, hmsg]⟩

theorem c1_photo_failure_aborts_witness :
    (∀ c ∈ [cardA], truthyNat c.imageId = false) ∧
    truthyNat cardImg.imageId = true ∧
    ∃ msg, exportAll ([cardA] ++ cardImg :: []) (fun _ => none)
      (fun _ => none) (fun _ => "") = .error msg :=
  ⟨by decide, by decide,
    c1_photo_failure_aborts [cardA] [] cardImg (fun _ => none)
      (fun _ => none) (fun _ => "") (by decide) (by decide) (Or.inl rfl)⟩

/-- C2 (counterexample): a batch consisting of one record with no `imageId`
and no cached raster exports successfully to an archive with zero entries
and with zero invocations of the Rendering Engine — refuting the claim
that the exporter renders once per record and writes at least one
still-image entry for every record. -/
theorem c2_one_entry_per_record_counterexample :
    exportAll [cardPlain] (fun _ => none) (fun _ => none) (fun _ => "") =
      .ok ([], []) := rfl

/-- C2 (amended): on a successful batch export, the Rendering Engine is
invoked exactly for the records with a truthy `imageId` (resolving their
photo first), and the archive carries `amount || 1` entries for every
record that was re-rendered or already had a truthy cached raster; records
with neither a truthy `imageId` nor a truthy cache contribute no entry and
no render. -/
theorem c2_render_and_entries (cards : List Card)
    (lk : ℕ → Option ImageFile) (dec : ImageFile → Option Bitmap)
    (enc : List Op → String) (res : List (String × String) × List ℕ)
    (hok : exportAll cards lk dec enc = .ok res) :
    res.2 = renderedIdx 0 cards ∧
    res.1.map Prod.fst = expectedNames 0 cards := by
  suffices h : ∀ (cs : List Card) (k : ℕ)
      (r : List (String × String) × List ℕ),
      exportLoop lk dec enc k cs = .ok r →
      r.2 = renderedIdx k cs ∧ r.1.map Prod.fst = expectedNames k cs by
    exact h cards 0 res hok
  intro cs
  induction cs with
  | nil =>
    intro k r h
    simp [exportLoop] at h
    simp [← h, renderedIdx, expectedNames]
  | cons c rest ih =>
    intro k r h
    rw [exportLoop] at h
    by_cases hc : truthyNat c.imageId
    · rcases hl : lk (c.imageId.getD 0) with _ | f
      · simp [hc, hl] at h
      · rcases hd : dec f with _ | b
        · simp [hc, hl, hd] at h
        · rcases hrest : exportLoop lk dec enc (k + 1) rest with e | rr
          · simp [hc, hl, hd, hrest] at h
          · have hb : truthyStr (some ("data:image/png;base64," ++
                enc (renderCanvas 732 1039 c (some b)))) = true := by
              simp only [truthyStr, decide_eq_true_eq]
              intro hemp
              have hlen := congrArg String.length hemp
              rw [String.length_append,
                show ("data:image/png;base64,").length = 22 from rfl,
                show ("").length = 0 from rfl] at hlen
              omega
            simp [hc, hl, hd, hrest, hb] at h
            subst h
            obtain ⟨hE, hR⟩ := ih (k + 1) rr hrest
            constructor
            · simp [renderedIdx, hc, hE]
            · simp [expectedNames, hc, hR, cardEntries, List.map_map,
                Function.comp_def, amountOf]
    · rcases hrest : exportLoop lk dec enc (k + 1) rest with e | rr
      · simp [hc, hrest] at h
      · obtain ⟨hE, hR⟩ := ih (k + 1) rr hrest
        cases hbase : truthyStr c.base64 with
        | false =>
          simp [hc, hrest, hbase] at h
          subst h
          constructor
          · simp [renderedIdx, hc, hE]
          · simp [expectedNames, hc, hbase, hR]
        | true =>
          simp [hc, hrest, hbase] at h
          subst h
          constructor
          · simp [renderedIdx, hc, hE]
          · simp [expectedNames, hc, hbase, hR, cardEntries,
              List.map_map, Function.comp_def]

theorem c2_render_and_entries_witness :
    exportAll [cardA] (fun _ => none) (fun _ => none) (fun _ => "") =
      .ok ([("0.png", "AAAA")], []) ∧
    (([("0.png", "AAAA")], ([] : List ℕ)).2 = renderedIdx 0 [cardA] ∧
     ([("0.png", "AAAA")], ([] : List ℕ)).1.map Prod.fst =
       expectedNames 0 [cardA]) :=
  ⟨rfl, c2_render_and_entries [cardA] (fun _ => none) (fun _ => none)
    (fun _ => "") ([("0.png", "AAAA")], []) rfl⟩

/-- C4: archive entry naming and order — the first copy of the record at
position `index` is named `{index}.png`, the `n`-th extra copy
`{index}-{n}.png`; a batch of cache-only records yields exactly the
per-record entry blocks concatenated in input order; and the concrete
batch `[cardA(amount 1), cardB(amount 2)]` yields the entries
`0.png`, `1.png`, `1-1.png` in that order. -/
theorem c4_entry_naming_order :
    (∀ i : ℕ, entryName i 0 = toString i ++ ".png") ∧
    (∀ i n : ℕ, n ≠ 0 →
      entryName i n = toString i ++ "-" ++ toString n ++ ".png") ∧
    (∀ (cards : List Card) (lk : ℕ → Option ImageFile)
      (dec : ImageFile → Option Bitmap) (enc : List Op → String),
      (∀ c ∈ cards, truthyNat c.imageId = false ∧
        truthyStr c.base64 = true) →
      exportAll cards lk dec enc = .ok (archiveFromCache 0 cards, [])) ∧
    (exportAll [cardA, cardB] (fun _ => none) (fun _ => none) (fun _ => "") =
      .ok ([("0.png", "AAAA"), ("1.png", "BBBB"), ("1-1.png", "BBBB")], [])) := by
  refine ⟨fun i => by simp [entryName], fun i n hn => by simp [entryName, hn],
    ?_, rfl⟩
  intro cards lk dec enc hcards
  suffices h : ∀ (cs : List Card),
      (∀ c ∈ cs, truthyNat c.imageId = false ∧ truthyStr c.base64 = true) →
      ∀ k, exportLoop lk dec enc k cs = .ok (archiveFromCache k cs, []) by
    exact h cards hcards 0
  intro cs
  induction cs with
  | nil => intro _ k; simp [exportLoop, archiveFromCache]
  | cons c rest ih =>
    intro hcs k
    have hc := hcs c (List.mem_cons_self c rest)
    have hrest := ih (fun x hx => hcs x (List.mem_cons_of_mem c hx)) (k + 1)
    simp [exportLoop, hc.1, hc.2, hrest, archiveFromCache]

theorem c4_entry_naming_order_witness :
    ((2 : ℕ) ≠ 0 ∧ entryName 1 2 = toString 1 ++ "-" ++ toString 2 ++ ".png") ∧
    (∀ c ∈ [cardA, cardB], truthyNat c.imageId = false ∧
      truthyStr c.base64 = true) ∧
    exportAll [cardA, cardB] (fun _ => none) (fun _ => none) (fun _ => "") =
      .ok (archiveFromCache 0 [cardA, cardB], []) :=
  ⟨⟨by decide, c4_entry_naming_order.2.1 1 2 (by decide)⟩, by decide,
    c4_entry_naming_order.2.2.1 [cardA, cardB] (fun _ => none)
      (fun _ => none) (fun _ => "") (by decide)⟩

theorem c7_render_pure_witness :
    stripCache cardA = stripCache { cardA with base64 := some "Q" } ∧
    renderCanvas 732 1039 cardA none =
      renderCanvas 732 1039 { cardA with base64 := some "Q" } none :=
  ⟨rfl, c7_render_pure 732 1039 cardA { cardA with base64 := some "Q" } none
    rfl⟩

/-- C8: point-reflection duplication — for a card with non-empty
description, every upper-cased description line drawn at
`(cornerWidth + 35, 70 + i·27)` under the identity transform is redrawn
with identical text, offsets and styles under the transform obtained by
translating the origin to `(w, h)` and rotating by π; the corner value
glyph at `(cornerWidth/2, 117)` (and, when present, the caption at
`(cornerWidth/2, 160)`) is duplicated by the same
translate-then-rotate-by-π technique; and these mirroring transforms are
point reflections about the surface center: the description mirror sends
`(x, y)` to `(w - x, h - y)`, and a mirror translated to `(tx, ty)` lands
its origin-drawn text at device position `(tx, ty)`. -/
theorem c8_mirrored_duplication (w h : ℚ) (c : Card) (img : Option Bitmap)
    (hdesc : c.description ≠ "") :
    (∀ i : ℕ, i < (splitLines c.description).length →
      Op.fillText (((splitLines c.description).getD i "").toUpper)
          (cornerWidth c.value + 35) (70 + (i : ℚ) * 27)
          (.color "#dddddd") "bold 18px Besley" "left" "none" Affine.idA
        ∈ renderCanvas w h c img ∧
      Op.fillText (((splitLines c.description).getD i "").toUpper)
          (cornerWidth c.value + 35) (70 + (i : ℚ) * 27)
          (.color "#dddddd") "bold 18px Besley" "left" "none"
          (Affine.mirrorAt Affine.idA w h)
        ∈ renderCanvas w h c img) ∧
    (Op.fillText c.value (cornerWidth c.value / 2) 117
        (.color (jsOr c.borderTextColor "#555555")) "120px Bangers" "center"
        "none" Affine.idA ∈ renderCanvas w h c img ∧
     Op.fillText c.value 0 0
        (.color (jsOr c.borderTextColor "#555555")) "120px Bangers" "center"
        "none" (Affine.mirrorAt Affine.idA (w - cornerWidth c.value / 2)
          (h - 117)) ∈ renderCanvas w h c img) ∧
    (c.valueDescription ≠ "" →
      (Op.fillText c.valueDescription (cornerWidth c.value / 2) 160
          (.color (jsOr c.borderSmallTextColor "#999999"))
          (cornerCaptionFont c.value c.valueDescription) "center" "none"
          Affine.idA ∈ renderCanvas w h c img ∧
       Op.fillText c.valueDescription 0 0
          (.color (jsOr c.borderSmallTextColor "#999999"))
          (cornerCaptionFont c.value c.valueDescription) "center" "none"
          (Affine.mirrorAt Affine.idA (w - cornerWidth c.value / 2)
            (h - 160)) ∈ renderCanvas w h c img)) ∧
    (∀ x y : ℚ, (Affine.mirrorAt Affine.idA w h).apply (x, y) =
      (w - x, h - y)) ∧
    (∀ tx ty : ℚ, (Affine.mirrorAt Affine.idA tx ty).apply (0, 0) =
      (tx, ty)) := by
  have hops := renderCanvas_eq w h c img
  have hdescsub : ∀ op : Op, op ∈ descOps w h Affine.idA c →
      op ∈ renderCanvas w h c img := by
    intro op hop
    rw [hops]
    simp only [List.mem_append]
    tauto
  have hvaluesub : ∀ op : Op, op ∈ valueOps w h Affine.idA c →
      op ∈ renderCanvas w h c img := by
    intro op hop
    rw [hops]
    simp only [List.mem_append]
    tauto
  have hcapsub : ∀ op : Op, op ∈ captionOps w h Affine.idA c →
      op ∈ renderCanvas w h c img := by
    intro op hop
    rw [hops]
    simp only [List.mem_append]
    tauto
  refine ⟨fun i hi => ⟨?_, ?_⟩, ⟨?_, ?_⟩, fun hvd => ⟨?_, ?_⟩, ?_, ?_⟩
  · apply hdescsub
    unfold descOps
    rw [if_neg hdesc]
    exact List.mem_append_left _
      (List.mem_map.mpr ⟨i, List.mem_range.mpr hi, rfl⟩)
  · apply hdescsub
    unfold descOps
    rw [if_neg hdesc]
    exact List.mem_append_right _
      (List.mem_map.mpr ⟨i, List.mem_range.mpr hi, rfl⟩)
  · exact hvaluesub _ (by simp [valueOps])
  · exact hvaluesub _ (by simp [valueOps])
  · apply hcapsub
    unfold captionOps
    rw [if_neg hvd]
    simp
  · apply hcapsub
    unfold captionOps
    rw [if_neg hvd]
    simp
  · intro x y
    simp [Affine.mirrorAt, Affine.comp, Affine.apply, Affine.idA,
      Affine.transA, Affine.rotPi, Prod.ext_iff]
    constructor <;> ring
  · intro tx ty
    simp [Affine.mirrorAt, Affine.comp, Affine.apply, Affine.idA,
      Affine.transA, Affine.rotPi, Prod.ext_iff]

theorem c8_mirrored_duplication_witness :
    cardDesc.description ≠ "" ∧
    (0 : ℕ) < (splitLines cardDesc.description).length ∧
    Op.fillText (((splitLines cardDesc.description).getD 0 "").toUpper)
        (cornerWidth cardDesc.value + 35) (70 + (0 : ℚ) * 27)
        (.color "#dddddd") "bold 18px Besley" "left" "none" Affine.idA
      ∈ renderCanvas 732 1039 cardDesc none ∧
    (Affine.mirrorAt Affine.idA 732 1039).apply (100, 200) =
      (732 - 100, 1039 - 200) :=
  ⟨by decide, by decide,
    ((c8_mirrored_duplication 732 1039 cardDesc none (by decide)).1 0
      (by decide)).1,
    (c8_mirrored_duplication 732 1039 cardDesc none
      (by decide)).2.2.2.1 100 200⟩

end CardGameStudio
